import Mathlib

/-!
Shallow embedding of `synesthesia/gesture_detection.py` (class `GestureDetector`).

Modelling conventions:
* Normalized landmark coordinates are rationals (ℚ); Python's `int(...)`
  truncation toward zero on a rational is `pyInt`.
* The code stores Euclidean pixel distances (`np.hypot`) in
  `clap_dist_history` and only ever compares them against the constants
  200 and 120.  Since the coordinates fed to `np.hypot` are integers, we
  store the exact *squared* distance (an integer) and compare against
  `200^2 = 40000` and `120^2 = 14400`; both encodings order identically
  because squaring is monotone on nonnegative reals.
* `time.time()` is idealized as one rational timestamp per `detect` call
  (the Python code samples the clock several times inside one call).
* A missing landmark index (Python `IndexError`) is the single error
  `Err.indexError` in an `Except` result.  In the per-hand finger loop the
  source unconditionally reads landmark indices 3,4,6,8,10,12,14,16,18,20,
  so the loop raises exactly when the skeleton has fewer than 21 points.
-/

namespace Gesture

/- Batteries marks the rational field operations `[irreducible]`, which
blocks definitional evaluation of the embedded detector on concrete
frames; restore default reducibility locally so closed runs reduce. -/
attribute [local semireducible] Rat.add Rat.sub Rat.mul Rat.inv

/-- Point of a hand skeleton: normalized x and y coordinate. -/
structure Landmark where
  x : ℚ
  y : ℚ
  deriving DecidableEq, Repr

/-- A hand is the ordered list of its skeleton landmarks. -/
abbrev Hand := List Landmark

/-- One input frame: the provider's hand list, the pixel width and height of
the image (`frame.shape`), and the wall-clock time of the call. -/
structure Frame where
  hands : List Hand
  width : ℕ
  height : ℕ
  now : ℚ
  deriving Repr

/-- The gesture-kind strings used as debounce keys and return values. -/
inductive GKind where
  | clap_gesture
  | thumbs_up
  | wave
  deriving DecidableEq, Repr

/-- The (dead) three-state clap state machine of `__init__`. -/
inductive ClapState where
  | apart
  | approaching
  | clapped
  deriving DecidableEq, Repr

/-- Lazily created wave-tracking attributes `wave_prev_time` / `wave_start_pos`. -/
structure WaveState where
  wave_prev_time : ℚ
  wave_start_pos : ℚ
  deriving DecidableEq, Repr

/-- Python `IndexError` raised by an out-of-range landmark access. -/
inductive Err where
  | indexError
  deriving DecidableEq, Repr

/-- Mutable state of a `GestureDetector` instance. -/
structure State where
  last_gesture_time : GKind → Option ℚ
  debounce_time : ℚ
  clap_state : ClapState
  prev_dist : Option ℚ
  clap_dist_history : Option (List ℤ)
  wave : Option WaveState

/-- `GestureDetector.__init__` with the default `debounce_time=0.5`:
empty debounce dictionary, clap state machine `apart`, and the lazily
created attributes (`clap_dist_history`, wave tracking) absent. -/
def initState : State :=
  { last_gesture_time := fun _ => none
    debounce_time := 1/2
    clap_state := ClapState.apart
    prev_dist := none
    clap_dist_history := none
    wave := none }

/-- Python `int(q)`: truncation toward zero, which on a rational is integer
T-division of numerator by denominator. -/
def pyInt (q : ℚ) : ℤ := q.num / (q.den : ℤ)

/-- `GestureDetector._debounce` (lines 29–35): look up the kind with default
0, allow iff strictly more than `debounce_time` has elapsed, and record the
current time exactly when allowed. -/
def debounce (s : State) (k : GKind) (now : ℚ) : State × Bool :=
  if now - ((s.last_gesture_time k).getD 0) > s.debounce_time then
    ({ s with last_gesture_time :=
        fun q => if q = k then some now else s.last_gesture_time q }, true)
  else (s, false)

/-- Squared pixel distance between the two wrist landmarks after the
`int(...)` truncation of lines 66–67; `np.hypot x y ^ 2 = x^2 + y^2`. -/
def wristDistSq (l1 l2 : Landmark) (w h : ℕ) : ℤ :=
  let x1 := pyInt (l1.x * w)
  let y1 := pyInt (l1.y * h)
  let x2 := pyInt (l2.x * w)
  let y2 := pyInt (l2.y * h)
  (x2 - x1) ^ 2 + (y2 - y1) ^ 2

/-- Default landmark for `List.getD` accesses that are guarded by an
explicit length check and can therefore never be taken. -/
def lm0 : Landmark := ⟨0, 0⟩

/-- Palm center of a hand, from the dead helper
`GestureDetector._get_min_distance` (lines 42–47): the average of the wrist
(landmark 0) and the middle-finger base (landmark 9), denormalized to pixel
space without truncation.  Returned as a coordinate pair. -/
def palmCenter (h : Hand) (w ht : ℕ) : ℚ × ℚ :=
  let wr := h.getD 0 lm0
  let mb := h.getD 9 lm0
  ((wr.x * w + mb.x * w) / 2, (wr.y * ht + mb.y * ht) / 2)

/-- Squared palm-center distance of `_get_min_distance` (line 51),
`np.linalg.norm (p1 - p2) ^ 2`. -/
def palmDistSq (h1 h2 : Hand) (w ht : ℕ) : ℚ :=
  let p1 := palmCenter h1 w ht
  let p2 := palmCenter h2 w ht
  (p2.1 - p1.1) ^ 2 + (p2.2 - p1.2) ^ 2

/-- Lines 74–75: after appending, `pop(0)` whenever the history exceeds 10
entries. -/
def trimHist (l : List ℤ) : List ℤ :=
  if l.length > 10 then l.drop 1 else l

/-- Line 77: `any(d > 200 for d in self.clap_dist_history[:-2])`, on squared
distances.  `l.take (l.length - 2)` is exactly Python `l[:-2]`. -/
def wasFar (l : List ℤ) : Bool :=
  (l.take (l.length - 2)).any (fun d => decide (d > 40000))

/-- Lines 73–79 as a pure step on the history: append the new squared
distance, trim, and report whether the far-then-close candidate rule fires
(`was_far and dist < 120`). -/
def clapStepHist (hist : List ℤ) (dSq : ℤ) : List ℤ × Bool :=
  let h2 := trimHist (hist ++ [dSq])
  (h2, wasFar h2 && decide (dSq < 14400))

/-- Landmark access `hand.landmark[i]`; out of range raises `IndexError`. -/
def land (h : Hand) (i : ℕ) : Except Err Landmark :=
  match h.get? i with
  | some l => .ok l
  | none => .error Err.indexError

/-- Lines 90–104: the five finger-extension booleans.  The loop reads
landmark indices 4,3 then 8,6,12,10,16,14,20,18 unconditionally, so it
raises `IndexError` exactly when the skeleton has fewer than 21 points;
otherwise every `getD` below hits a real landmark. -/
def fingersOf (h : Hand) : Except Err (List Bool) :=
  if h.length < 21 then .error Err.indexError
  else
    .ok [decide ((h.getD 4 lm0).x < (h.getD 3 lm0).x),
         decide ((h.getD 8 lm0).y < (h.getD 6 lm0).y),
         decide ((h.getD 12 lm0).y < (h.getD 10 lm0).y),
         decide ((h.getD 16 lm0).y < (h.getD 14 lm0).y),
         decide ((h.getD 20 lm0).y < (h.getD 18 lm0).y)]

/-- The thumbs-up finger pattern `[1, 0, 0, 0, 0]` of line 107. -/
def thumbPat : List Bool := [true, false, false, false, false]

/-- The open-hand finger pattern `[1, 1, 1, 1, 1]` of line 112. -/
def openPat : List Bool := [true, true, true, true, true]

/-- Lines 107–109: on a thumbs-up pattern, always consult `_debounce`
(which may record the time) and overwrite the frame's pending gesture when
it allows. -/
def thumbStep (now : ℚ) (s : State) (g : Option GKind) : State × Option GKind :=
  let p := debounce s GKind.thumbs_up now
  (p.1, if p.2 then some GKind.thumbs_up else g)

/-- Lines 112–126: on an open-hand pattern, advance the wave tracker with
the wrist's normalized x coordinate `x0`.  Absent state is seeded; inside
the 1-second window a pixel travel above 60 consults `_debounce` and may
overwrite the pending gesture (the tracking state is left as it was);
outside the window the state is reseeded. -/
def waveStep (wFrame : ℕ) (now : ℚ) (s : State) (g : Option GKind) (x0 : ℚ) :
    State × Option GKind :=
  match s.wave with
  | none => ({ s with wave := some ⟨now, x0⟩ }, g)
  | some ws =>
    if now - ws.wave_prev_time < 1 then
      if |x0 - ws.wave_start_pos| * (wFrame : ℚ) > 60 then
        let p := debounce s GKind.wave now
        (p.1, if p.2 then some GKind.wave else g)
      else (s, g)
    else ({ s with wave := some ⟨now, x0⟩ }, g)

/-- One iteration of the per-hand loop of lines 89–126. -/
def handStep (wFrame : ℕ) (now : ℚ) (acc : State × Option GKind) (h : Hand) :
    Except Err (State × Option GKind) :=
  match fingersOf h with
  | .error e => .error e
  | .ok fingers =>
    let a1 := if fingers = thumbPat then thumbStep now acc.1 acc.2 else acc
    if fingers = openPat then
      .ok (waveStep wFrame now a1.1 a1.2 ((h.getD 0 lm0).x))
    else .ok a1

/-- The whole `for handLms in hand_landmarks` loop. -/
def handsLoop (wFrame : ℕ) (now : ℚ) (acc : State × Option GKind) :
    List Hand → Except Err (State × Option GKind)
  | [] => .ok acc
  | h :: rest =>
    match handStep wFrame now acc h with
    | .error e => .error e
    | .ok acc2 => handsLoop wFrame now acc2 rest

/-- Lines 62–86: the clap phase.  With exactly two hands, read both wrists,
append the (squared) wrist distance to the history, trim, and — when the
far-then-close rule fires and `_debounce('clap_gesture')` allows — signal
an early `clap_gesture` return.  With any other nonzero hand count, reset
the dead state-machine fields `clap_state` and `prev_dist` (the history is
left untouched). -/
def clapPhase (s : State) (f : Frame) : Except Err (State × Bool) :=
  if f.hands.length = 2 then
    match land (f.hands.getD 0 []) 0, land (f.hands.getD 1 []) 0 with
    | .ok l1, .ok l2 =>
      let dSq := wristDistSq l1 l2 f.width f.height
      let r := clapStepHist (s.clap_dist_history.getD []) dSq
      let s1 := { s with clap_dist_history := some r.1 }
      if r.2 then
        let p := debounce s1 GKind.clap_gesture f.now
        .ok (p.1, p.2)
      else .ok (s1, false)
    | _, _ => .error Err.indexError
  else
    .ok ({ s with clap_state := ClapState.apart, prev_dist := none }, false)

/-- `GestureDetector.detect` (lines 54–128).  An empty hand list (falsy
`multi_hand_landmarks`) skips everything and returns `None`; otherwise the
clap phase may return `clap_gesture` early, else the per-hand loop runs and
its final pending gesture is returned. -/
def detect (s : State) (f : Frame) : Except Err (State × Option GKind) :=
  if f.hands.isEmpty then .ok (s, none)
  else
    match clapPhase s f with
    | .error e => .error e
    | .ok (s1, true) => .ok (s1, some GKind.clap_gesture)
    | .ok (s1, false) => handsLoop f.width f.now (s1, none) f.hands

/-- The caller's per-frame loop: run `detect` on each frame in turn,
keeping the detector state and discarding the returned gestures. -/
def runFrames (s : State) : List Frame → Except Err State
  | [] => .ok s
  | f :: rest =>
    match detect s f with
    | .error e => .error e
    | .ok (s2, _) => runFrames s2 rest

/-- A skeleton of 21 copies of one landmark: a well-formed but featureless
hand (no finger pattern matches because all comparisons are strict). -/
def mkHand (p : Landmark) : Hand := List.replicate 21 p

/-- A 21-point hand matching the thumbs-up pattern `[1,0,0,0,0]`:
all landmarks at (1/2, 1/2) except the thumb tip (index 4) pulled to
x = 2/5 < 1/2. -/
def thumbHand : Hand := (mkHand ⟨1/2, 1/2⟩).set 4 ⟨2/5, 1/2⟩

/-- A 21-point hand matching the open-hand pattern `[1,1,1,1,1]` whose
wrist sits at normalized x-coordinate `x`: every fingertip is above its
reference joint and the thumb tip is pulled inward. -/
def openHand (x : ℚ) : Hand :=
  ((((((mkHand ⟨1/2, 1/2⟩).set 4 ⟨2/5, 1/2⟩).set 8 ⟨1/2, 2/5⟩).set
      12 ⟨1/2, 2/5⟩).set 16 ⟨1/2, 2/5⟩).set 20 ⟨1/2, 2/5⟩).set 0 ⟨x, 1/2⟩

/-- A frame holding two featureless hands with wrists at normalized
x-coordinates `x1` and `x2` (y = 0), on a 1000×1000 image. -/
def twoNeutral (x1 x2 now : ℚ) : Frame :=
  ⟨[mkHand ⟨x1, 0⟩, mkHand ⟨x2, 0⟩], 1000, 1000, now⟩

/-- A frame holding one featureless hand, on a 1000×1000 image. -/
def oneNeutral (now : ℚ) : Frame := ⟨[mkHand ⟨0, 0⟩], 1000, 1000, now⟩

/-! ## Basic lemmas about the state transformers -/

/-- The clap-related fields and the cooldown length of two states agree. -/
def SameClapFields (a b : State) : Prop :=
  a.debounce_time = b.debounce_time ∧
  a.clap_state = b.clap_state ∧
  a.prev_dist = b.prev_dist ∧
  a.clap_dist_history = b.clap_dist_history

theorem SameClapFields.refl (a : State) : SameClapFields a a :=
  ⟨rfl, rfl, rfl, rfl⟩

theorem SameClapFields.trans {a b c : State} (h1 : SameClapFields a b)
    (h2 : SameClapFields b c) : SameClapFields a c :=
  ⟨h1.1.trans h2.1, h1.2.1.trans h2.2.1, h1.2.2.1.trans h2.2.2.1,
    h1.2.2.2.trans h2.2.2.2⟩

/-- `_debounce` only ever writes the `last_gesture_time` dictionary; every
other detector field is untouched. -/
theorem debounce_fst_fields (s : State) (k : GKind) (now : ℚ) :
    SameClapFields (debounce s k now).1 s ∧ (debounce s k now).1.wave = s.wave := by
  unfold debounce; split <;> exact ⟨⟨rfl, rfl, rfl, rfl⟩, rfl⟩

theorem thumbStep_fields (now : ℚ) (s : State) (g : Option GKind) :
    SameClapFields (thumbStep now s g).1 s ∧ (thumbStep now s g).1.wave = s.wave := by
  unfold thumbStep; exact debounce_fst_fields s GKind.thumbs_up now

theorem waveStep_fields (w : ℕ) (now : ℚ) (s : State) (g : Option GKind) (x0 : ℚ) :
    SameClapFields (waveStep w now s g x0).1 s := by
  unfold waveStep
  split
  · exact ⟨rfl, rfl, rfl, rfl⟩
  · split
    · split
      · exact (debounce_fst_fields s GKind.wave now).1
      · exact SameClapFields.refl s
    · exact ⟨rfl, rfl, rfl, rfl⟩

/-- Reduction of `handStep` when the finger classifier succeeds. -/
theorem handStep_eq_ok {w : ℕ} {now : ℚ} {acc : State × Option GKind}
    {h : Hand} {fingers : List Bool} (hfin : fingersOf h = .ok fingers) :
    handStep w now acc h =
      .ok (if fingers = openPat then
             waveStep w now
               (if fingers = thumbPat then thumbStep now acc.1 acc.2 else acc).1
               (if fingers = thumbPat then thumbStep now acc.1 acc.2 else acc).2
               ((h.getD 0 lm0).x)
           else if fingers = thumbPat then thumbStep now acc.1 acc.2 else acc) := by
  unfold handStep
  rw [hfin]
  dsimp only
  split <;> rfl

/-- Reduction of `handStep` when the finger classifier raises. -/
theorem handStep_eq_err {w : ℕ} {now : ℚ} {acc : State × Option GKind}
    {h : Hand} {e : Err} (hfin : fingersOf h = .error e) :
    handStep w now acc h = .error e := by
  unfold handStep; rw [hfin]

/-- Unfolding equation for the loop on a cons cell. -/
theorem handsLoop_cons (w : ℕ) (now : ℚ) (acc : State × Option GKind)
    (h : Hand) (rest : List Hand) :
    handsLoop w now acc (h :: rest) =
      match handStep w now acc h with
      | .error e => .error e
      | .ok acc2 => handsLoop w now acc2 rest := rfl

/-- One per-hand loop iteration never touches the clap-related fields nor
the cooldown length. -/
theorem handStep_ok_fields {w : ℕ} {now : ℚ} {acc acc2 : State × Option GKind}
    {h : Hand} (hs : handStep w now acc h = .ok acc2) :
    SameClapFields acc2.1 acc.1 := by
  cases hfin : fingersOf h with
  | error e => rw [handStep_eq_err hfin] at hs; cases hs
  | ok fingers =>
    rw [handStep_eq_ok hfin] at hs
    injection hs with hs
    subst hs
    split
    · exact (waveStep_fields _ _ _ _ _).trans
        (by split
            · exact (thumbStep_fields _ _ _).1
            · exact SameClapFields.refl _)
    · split
      · exact (thumbStep_fields _ _ _).1
      · exact SameClapFields.refl _

/-- The whole per-hand loop never touches the clap-related fields nor the
cooldown length. -/
theorem handsLoop_ok_fields {w : ℕ} {now : ℚ} :
    ∀ {l : List Hand} {acc acc2 : State × Option GKind},
    handsLoop w now acc l = .ok acc2 → SameClapFields acc2.1 acc.1 := by
  intro l
  induction l with
  | nil => intro acc acc2 hl; cases hl; exact SameClapFields.refl _
  | cons h rest ih =>
    intro acc acc2 hl
    rw [handsLoop_cons] at hl
    cases hstep : handStep w now acc h with
    | error e => rw [hstep] at hl; exact absurd hl (by simp)
    | ok accm =>
      rw [hstep] at hl
      exact (ih hl).trans (handStep_ok_fields hstep)

/-- A well-formed hand (at least 21 skeleton points) never raises an index
error in the per-hand loop. -/
theorem fingersOf_ok_of_wf {h : Hand} (hw : 21 ≤ h.length) :
    fingersOf h =
      .ok [decide ((h.getD 4 lm0).x < (h.getD 3 lm0).x),
           decide ((h.getD 8 lm0).y < (h.getD 6 lm0).y),
           decide ((h.getD 12 lm0).y < (h.getD 10 lm0).y),
           decide ((h.getD 16 lm0).y < (h.getD 14 lm0).y),
           decide ((h.getD 20 lm0).y < (h.getD 18 lm0).y)] := by
  unfold fingersOf; rw [if_neg (by omega)]

theorem handStep_ok_of_wf {w : ℕ} {now : ℚ} {acc : State × Option GKind}
    {h : Hand} (hw : 21 ≤ h.length) :
    ∃ acc2, handStep w now acc h = .ok acc2 := by
  rw [handStep_eq_ok (fingersOf_ok_of_wf hw)]
  exact ⟨_, rfl⟩

/-- The per-hand loop succeeds on any list of well-formed hands. -/
theorem handsLoop_ok_of_wf {w : ℕ} {now : ℚ} :
    ∀ {l : List Hand} {acc : State × Option GKind},
    (∀ h ∈ l, 21 ≤ h.length) →
    ∃ acc2, handsLoop w now acc l = .ok acc2 := by
  intro l
  induction l with
  | nil => intro acc _; exact ⟨acc, rfl⟩
  | cons h rest ih =>
    intro acc hwf
    obtain ⟨accm, hstep⟩ :=
      @handStep_ok_of_wf w now acc h (hwf h (by simp))
    obtain ⟨acc2, hrest⟩ := @ih accm (fun x hx => hwf x (by simp [hx]))
    refine ⟨acc2, ?_⟩
    rw [handsLoop_cons, hstep]
    exact hrest

/-- With a hand count other than 2, the clap phase of `detect` only resets
the dead state-machine fields and never signals a clap. -/
theorem clapPhase_not_two {s : State} {f : Frame} (hne : f.hands.length ≠ 2) :
    clapPhase s f =
      .ok ({ s with clap_state := ClapState.apart, prev_dist := none },
        false) := by
  unfold clapPhase; rw [if_neg hne]

/-- When the clap phase does not fire, `detect` on a nonempty frame is the
per-hand loop started from the clap phase's state. -/
theorem detect_eq_loop {s s1 : State} {f : Frame}
    (hne : f.hands.isEmpty = false) (hcp : clapPhase s f = .ok (s1, false)) :
    detect s f = handsLoop f.width f.now (s1, none) f.hands := by
  unfold detect; rw [hne, hcp]; rfl

/-- When the clap phase fires, `detect` returns `clap_gesture` early. -/
theorem detect_eq_clap {s s1 : State} {f : Frame}
    (hne : f.hands.isEmpty = false) (hcp : clapPhase s f = .ok (s1, true)) :
    detect s f = .ok (s1, some GKind.clap_gesture) := by
  unfold detect; rw [hne, hcp]; rfl

/-- Trimming after an append keeps at most 10 entries. -/
theorem trimHist_length_le (l : List ℤ) (d : ℤ) (hl : l.length ≤ 10) :
    (trimHist (l ++ [d])).length ≤ 10 := by
  unfold trimHist
  split <;> simp_all

/-- The newest sample is always the last entry of the trimmed history. -/
theorem trimHist_getLast (l : List ℤ) (d : ℤ) :
    (trimHist (l ++ [d])).getLast? = some d := by
  unfold trimHist
  split
  · rename_i hlen
    simp only [List.length_append, List.length_singleton] at hlen
    rw [List.drop_append_of_le_length (by omega)]
    exact List.getLast?_concat _
  · exact List.getLast?_concat _

/-- At capacity the oldest entry is the one evicted (FIFO). -/
theorem trimHist_eq_drop (l : List ℤ) (d : ℤ) (hl : l.length = 10) :
    trimHist (l ++ [d]) = l.drop 1 ++ [d] := by
  unfold trimHist
  rw [if_pos (by simp [hl]), List.drop_append_of_le_length (by omega)]

/-- Reduction of the two-hand clap phase: the history always becomes the
trimmed append of the squared wrist distance, and the candidate flag
follows the far-then-close rule. -/
theorem clapPhase_two_ok {s : State} {f : Frame} (h2 : f.hands.length = 2)
    {l1 l2 : Landmark}
    (hl1 : land (f.hands.getD 0 []) 0 = .ok l1)
    (hl2 : land (f.hands.getD 1 []) 0 = .ok l2)
    {s1 : State} {b : Bool} (hcp : clapPhase s f = .ok (s1, b)) :
    s1.clap_dist_history =
      some (trimHist ((s.clap_dist_history.getD []) ++
        [wristDistSq l1 l2 f.width f.height])) := by
  unfold clapPhase at hcp
  rw [if_pos h2, hl1, hl2] at hcp
  dsimp only [clapStepHist] at hcp
  split at hcp
  · cases hcp
    exact (debounce_fst_fields _ _ _).1.2.2.2
  · cases hcp
    rfl

/-- Case analysis of `detect` on a nonempty frame: the clap phase succeeds
and either preempts with `clap_gesture` or hands control to the loop. -/
theorem detect_ok_cases {s : State} {f : Frame}
    (hne : f.hands.isEmpty = false) {s2 : State} {g : Option GKind}
    (hd : detect s f = .ok (s2, g)) :
    ∃ s1 b, clapPhase s f = .ok (s1, b) ∧
      ((b = true ∧ s2 = s1 ∧ g = some GKind.clap_gesture) ∨
        (b = false ∧ handsLoop f.width f.now (s1, none) f.hands = .ok (s2, g))) := by
  unfold detect at hd
  rw [hne] at hd
  cases hcp : clapPhase s f with
  | error e => rw [hcp] at hd; exact absurd hd (by simp)
  | ok p =>
    rw [hcp] at hd
    obtain ⟨s1, b⟩ := p
    cases b
    · exact ⟨s1, false, rfl, .inr ⟨rfl, hd⟩⟩
    · have hd2 : Except.ok (ε := Err) (s1, some GKind.clap_gesture) = .ok (s2, g) := hd
      injection hd2 with hd3
      exact ⟨s1, true, rfl, .inl ⟨rfl, (congrArg Prod.fst hd3).symm,
        (congrArg Prod.snd hd3).symm⟩⟩

/-! ## C9: a zero-hand frame is a complete no-op -/

/-- C9 (confirmed): when the provider reports zero hands, `detect` returns
no event and returns the detector state unchanged — the clap distance
history, the dead clap state fields, the wave tracking state and the
debounce table are all exactly the input state's. -/
theorem detect_zero_hands_noop (s : State) (w ht : ℕ) (now : ℚ) :
    detect s ⟨[], w, ht, now⟩ = .ok (s, none) := rfl

/-! ## C1: the hand-count reset does not clear the clap history -/

/-- C1 (counterexample): two far/medium two-hand frames, then a one-hand
frame, then a close two-hand frame.  After the one-hand frame the clap
distance history still holds both pre-reset samples (squared distances
90000 and 22500), and the following single two-hand frame — which adds no
new far sample — returns `clap_gesture`.  The claimed reset invariant is
therefore false of the code. -/
theorem c1_history_survives_reset_cx :
    (runFrames initState
        [twoNeutral 0 (3/10) 1, twoNeutral 0 (3/20) 2, oneNeutral 3]).map
      (fun s => s.clap_dist_history) = .ok (some [90000, 22500]) ∧
    ((runFrames initState
        [twoNeutral 0 (3/10) 1, twoNeutral 0 (3/20) 2, oneNeutral 3]).bind
      (fun sC => (detect sC (twoNeutral 0 (1/20) 4)).map Prod.snd)) =
      .ok (some GKind.clap_gesture) := ⟨by rfl, by rfl⟩

/-- C1 (amended): a frame whose hand count is not 2 (but at least 1) only
resets the dead state-machine fields `clap_state` and `prev_dist`; the
clap distance history is left exactly as it was, so far samples gathered
before the hand-count change remain able to combine with a later close
sample. -/
theorem c1_non_two_hand_frame_keeps_history (s : State) (f : Frame)
    (hne : f.hands ≠ []) (h2 : f.hands.length ≠ 2) {s2 : State}
    {g : Option GKind} (hd : detect s f = .ok (s2, g)) :
    s2.clap_dist_history = s.clap_dist_history ∧
    s2.clap_state = ClapState.apart ∧ s2.prev_dist = none := by
  have hne2 : f.hands.isEmpty = false := List.isEmpty_eq_false.mpr hne
  rw [detect_eq_loop hne2 (clapPhase_not_two h2)] at hd
  have hf := handsLoop_ok_fields hd
  exact ⟨hf.2.2.2, hf.2.1, hf.2.2.1⟩

/-- C1 witness: the amended statement instantiated at a fresh detector and
a single one-hand frame. -/
theorem c1_non_two_hand_frame_keeps_history_witness :
    initState.clap_dist_history = initState.clap_dist_history ∧
    initState.clap_state = ClapState.apart ∧ initState.prev_dist = none :=
  c1_non_two_hand_frame_keeps_history initState (oneNeutral 3)
    (by simp [oneNeutral]) (by simp [oneNeutral]) rfl

/-! ## C5: the debounce gate's default is 0, not negative infinity -/

/-- C5 (counterexample): with an empty debounce table (`table.get`
defaulting to 0, not −∞), the very first `thumbs_up` candidate at time
0.3 is rejected, because 0.3 − 0 ≤ 0.5.  The claim that a first-ever
candidate is always allowed regardless of `now` is false of the code. -/
theorem c5_first_candidate_rejected_cx :
    (debounce initState GKind.thumbs_up (3/10)).2 = false ∧
    initState.last_gesture_time GKind.thumbs_up = none := ⟨by decide, rfl⟩

/-- C5 (amended): `_debounce` allows a kind and stamps `table[kind] = now`
exactly when `now - table.get(kind, 0) > debounce_time` — the absent-key
default is 0, so the first-ever candidate is allowed only when
`now > debounce_time`.  For a fresh kind with the default 0.5s cooldown
and a first candidate at `t > 0.5`: the first is allowed, and a second at
`t + d` is allowed precisely when `d > 0.5`. -/
theorem c5_debounce_default_zero_rule :
    (∀ (s : State) (k : GKind) (now : ℚ),
      ((debounce s k now).2 = true ↔
        now - ((s.last_gesture_time k).getD 0) > s.debounce_time) ∧
      ((debounce s k now).2 = true →
        (debounce s k now).1.last_gesture_time k = some now)) ∧
    (∀ (s : State) (k : GKind) (t d : ℚ),
      s.last_gesture_time k = none → s.debounce_time = 1/2 → 1/2 < t →
      (debounce s k t).2 = true ∧
      (debounce (debounce s k t).1 k (t + d)).2 = decide (1/2 < d)) := by
  constructor
  · intro s k now
    constructor
    · unfold debounce; split <;> simp_all
    · intro hall
      unfold debounce at *
      split at hall
      · rename_i hcond
        rw [if_pos hcond]
        simp
      · simp at hall
  · intro s k t d h0 hdt ht
    have hcond : t - ((s.last_gesture_time k).getD 0) > s.debounce_time := by
      rw [h0, hdt]; simpa using ht
    have h1 : debounce s k t =
        ({ s with last_gesture_time :=
            fun q => if q = k then some t else s.last_gesture_time q }, true) := by
      unfold debounce; rw [if_pos hcond]
    refine ⟨by rw [h1], ?_⟩
    rw [h1]
    unfold debounce
    by_cases hc : 1/2 < d
    · rw [if_pos (by simp [hdt]; linarith)]
      exact (decide_eq_true hc).symm
    · rw [if_neg (by simp [hdt]; linarith)]
      exact (decide_eq_false hc).symm

/-- C5 witness: the amended rule instantiated at the fresh detector, a
first `wave` candidate at t = 1 and a second 1 second later. -/
theorem c5_debounce_default_zero_rule_witness :
    (debounce initState GKind.wave 1).2 = true ∧
    (debounce (debounce initState GKind.wave 1).1 GKind.wave (1 + 1)).2 =
      decide ((1 : ℚ)/2 < 1) :=
  c5_debounce_default_zero_rule.2 initState GKind.wave 1 1 rfl rfl (by norm_num)

/-! ## C6: the far-then-close rule also fires at distance 115 -/

/-- C6 (counterexample): feeding the squared distances of the first seven
Scenario-A frames (250², …, 130², then 115² = 13225) into a fresh
tracker raises a clap candidate already on the frame with distance 115,
since 115 < 120 and the history beyond the last two samples contains far
values; the claim that the candidate arises precisely on the distance-90
frame is false of the code. -/
theorem c6_candidate_at_115_cx :
    (([62500, 52900, 44100, 32400, 22500, 16900, 13225] : List ℤ).foldl
      (fun (p : List ℤ × Bool) d => clapStepHist p.1 d) ([], false)).2 = true ∧
    (13225 : ℤ) = 115 ^ 2 ∧ (115 : ℤ) ≠ 90 := by
  refine ⟨rfl, rfl, by decide⟩

/-- C6 (amended): after appending the current squared distance, a clap
candidate is raised exactly when some history entry other than the 2 most
recent exceeds the far threshold and the current distance is below the
close threshold; consequently Scenario A's eight frames (squared
distances of 250, 230, 210, 180, 150, 130, 115, 90) raise candidates
precisely on its last two frames — distances 115 and 90 — not only on
the frame with distance 90. -/
theorem c6_far_then_close_rule_and_scenario :
    (∀ (hist : List ℤ) (dSq : ℤ),
      ((clapStepHist hist dSq).2 = true ↔
        (∃ e ∈ (clapStepHist hist dSq).1.take
            ((clapStepHist hist dSq).1.length - 2), e > 40000) ∧
          dSq < 14400)) ∧
    (([62500, 52900, 44100, 32400, 22500, 16900, 13225, 8100] : List ℤ).foldl
      (fun (p : List ℤ × List Bool) d =>
        let r := clapStepHist p.1 d
        (r.1, p.2 ++ [r.2])) ([], [])).2 =
      [false, false, false, false, false, false, true, true] := by
  refine ⟨?_, rfl⟩
  intro hist dSq
  unfold clapStepHist wasFar
  simp [List.any_eq_true]

/-! ## C7: the clap history is bounded by 10 with FIFO eviction -/

/-- Unfolding equation for the caller loop on a cons cell. -/
theorem runFrames_cons (s : State) (f : Frame) (rest : List Frame) :
    runFrames s (f :: rest) =
      match detect s f with
      | .error e => .error e
      | .ok (s2, _) => runFrames s2 rest := rfl

/-- A successful two-hand clap phase presupposes both wrist reads. -/
theorem clapPhase_two_lands {s : State} {f : Frame} (h2 : f.hands.length = 2)
    {s1 : State} {b : Bool} (hcp : clapPhase s f = .ok (s1, b)) :
    ∃ l1 l2, land (f.hands.getD 0 []) 0 = .ok l1 ∧
      land (f.hands.getD 1 []) 0 = .ok l2 := by
  unfold clapPhase at hcp
  rw [if_pos h2] at hcp
  cases hd1 : land (f.hands.getD 0 []) 0 <;>
    cases hd2 : land (f.hands.getD 1 []) 0 <;> rw [hd1, hd2] at hcp
  · simp at hcp
  · simp at hcp
  · simp at hcp
  · exact ⟨_, _, rfl, rfl⟩

/-- On a successful two-hand frame the new clap history is the trimmed
append of one new squared distance to the old history. -/
theorem detect_two_hands_history {s : State} {f : Frame}
    (h2 : f.hands.length = 2) {s2 : State} {g : Option GKind}
    (hd : detect s f = .ok (s2, g)) :
    ∃ d, s2.clap_dist_history =
      some (trimHist ((s.clap_dist_history.getD []) ++ [d])) := by
  have hne : f.hands.isEmpty = false := by
    rw [List.isEmpty_eq_false]
    intro h0
    rw [h0] at h2
    simp at h2
  obtain ⟨s1, b, hcp, hcase⟩ := detect_ok_cases hne hd
  obtain ⟨l1, l2, hl1, hl2⟩ := clapPhase_two_lands h2 hcp
  have hhist := clapPhase_two_ok h2 hl1 hl2 hcp
  rcases hcase with ⟨hb, hs2, hg⟩ | ⟨hb, hloop⟩
  · exact ⟨_, hs2 ▸ hhist⟩
  · exact ⟨_, (handsLoop_ok_fields hloop).2.2.2.trans hhist⟩

/-- C7 (confirmed): processing any frame keeps the clap distance history
at no more than 10 entries, and when the bound is already reached a
two-hand frame evicts exactly the oldest entry (FIFO) while appending the
new sample; consequently a detector whose history is within bound keeps
it within bound over every successful frame sequence. -/
theorem c7_clap_history_bound_and_fifo :
    (∀ (s : State) (f : Frame) (s2 : State) (g : Option GKind),
      (s.clap_dist_history.getD []).length ≤ 10 →
      detect s f = .ok (s2, g) →
      (s2.clap_dist_history.getD []).length ≤ 10 ∧
      (f.hands.length = 2 → (s.clap_dist_history.getD []).length = 10 →
        ∃ d, s2.clap_dist_history =
          some ((s.clap_dist_history.getD []).drop 1 ++ [d]))) ∧
    (∀ (fs : List Frame) (s s2 : State),
      (s.clap_dist_history.getD []).length ≤ 10 →
      runFrames s fs = .ok s2 →
      (s2.clap_dist_history.getD []).length ≤ 10) := by
  have step : ∀ (s : State) (f : Frame) (s2 : State) (g : Option GKind),
      (s.clap_dist_history.getD []).length ≤ 10 →
      detect s f = .ok (s2, g) →
      (s2.clap_dist_history.getD []).length ≤ 10 ∧
      (f.hands.length = 2 → (s.clap_dist_history.getD []).length = 10 →
        ∃ d, s2.clap_dist_history =
          some ((s.clap_dist_history.getD []).drop 1 ++ [d])) := by
    intro s f s2 g hlen hd
    by_cases hemp : f.hands.isEmpty = true
    · have hz : detect s f = .ok (s, none) := by
        unfold detect; rw [hemp]; rfl
      rw [hz] at hd
      injection hd with hd
      have hs2 : s2 = s := (congrArg Prod.fst hd).symm
      subst hs2
      refine ⟨hlen, fun h2 _ => absurd h2 ?_⟩
      rw [List.isEmpty_iff.mp hemp]
      simp
    · have hne : f.hands.isEmpty = false := by
        cases hb : f.hands.isEmpty
        · rfl
        · exact absurd hb hemp
      by_cases h2 : f.hands.length = 2
      · obtain ⟨d, hh⟩ := detect_two_hands_history h2 hd
        constructor
        · rw [hh]
          simpa using trimHist_length_le _ d hlen
        · intro _ h10
          exact ⟨d, by rw [hh, trimHist_eq_drop _ _ h10]⟩
      · rw [detect_eq_loop hne (clapPhase_not_two h2)] at hd
        have hf := (handsLoop_ok_fields hd).2.2.2
        refine ⟨?_, fun hc _ => absurd hc h2⟩
        rw [hf]
        exact hlen
  refine ⟨step, ?_⟩
  intro fs
  induction fs with
  | nil =>
    intro s s2 hlen hr
    cases hr
    exact hlen
  | cons f rest ih =>
    intro s s2 hlen hr
    rw [runFrames_cons] at hr
    cases hdet : detect s f with
    | error e => rw [hdet] at hr; exact absurd hr (by simp)
    | ok p =>
      rw [hdet] at hr
      exact ih p.1 s2 ((step s f p.1 p.2 hlen hdet).1) hr

/-! ## C2: the fed distance is the wrist distance, not the palm distance -/

/-- Hand whose wrist is at (0,0) but whose middle-finger base (landmark 9)
is at (1/2, 0): its palm center differs markedly from its wrist. -/
def palmHand1 : Hand := (mkHand ⟨0, 0⟩).set 9 ⟨1/2, 0⟩

/-- Hand entirely at (1,0): palm center and wrist coincide. -/
def palmHand2 : Hand := mkHand ⟨1, 0⟩

/-- C2 (counterexample): on a 100×100 frame with `palmHand1` and
`palmHand2`, the value appended to the clap history is the squared
wrist-to-wrist distance 10000 (= 100²), while the dead palm-center helper
`_get_min_distance` would give squared distance 5625 (= 75²): the claim
that the fed distance is the palm-center distance is false of the code. -/
theorem c2_wrist_not_palm_cx :
    (detect initState ⟨[palmHand1, palmHand2], 100, 100, 5⟩).map
      (fun p => p.1.clap_dist_history) = .ok (some [10000]) ∧
    wristDistSq ⟨0, 0⟩ ⟨1, 0⟩ 100 100 = 10000 ∧
    palmDistSq palmHand1 palmHand2 100 100 = 5625 ∧
    ((10000 : ℚ) ≠ 5625) := ⟨by rfl, by rfl, by decide, by norm_num⟩

/-- C2 (amended): on every successful two-hand frame the value appended to
the clap distance history — its newest entry — is the squared pixel
distance between the two wrist landmarks (index 0, `int`-truncated
coordinates), as opposed to the palm-center distance of the unused helper
`_get_min_distance`. -/
theorem c2_fed_distance_is_wrist_distance (s : State) (h1 h2 : Hand)
    (w ht : ℕ) (now : ℚ) {l1 l2 : Landmark}
    (hl1 : h1.get? 0 = some l1) (hl2 : h2.get? 0 = some l2)
    {s2 : State} {g : Option GKind}
    (hd : detect s ⟨[h1, h2], w, ht, now⟩ = .ok (s2, g)) :
    (s2.clap_dist_history.getD []).getLast? = some (wristDistSq l1 l2 w ht) := by
  have hland1 : land (([h1, h2] : List Hand).getD 0 []) 0 = .ok l1 := by
    unfold land
    rw [show (([h1, h2] : List Hand).getD 0 []) = h1 from rfl, hl1]
  have hland2 : land (([h1, h2] : List Hand).getD 1 []) 0 = .ok l2 := by
    unfold land
    rw [show (([h1, h2] : List Hand).getD 1 []) = h2 from rfl, hl2]
  obtain ⟨s1, b, hcp, hcase⟩ :=
    detect_ok_cases (f := ⟨[h1, h2], w, ht, now⟩) rfl hd
  have hhist := clapPhase_two_ok (f := ⟨[h1, h2], w, ht, now⟩) rfl
    hland1 hland2 hcp
  rcases hcase with ⟨hb, hs2, hg⟩ | ⟨hb, hloop⟩
  · rw [hs2, hhist]
    simpa using trimHist_getLast _ _
  · rw [(handsLoop_ok_fields hloop).2.2.2, hhist]
    simpa using trimHist_getLast _ _

/-- The state reached from a fresh detector by the C2 witness frame. -/
def sPalm : State := { initState with clap_dist_history := some [10000] }

/-- C2 witness: the amended statement instantiated at the concrete
palm-vs-wrist frame. -/
theorem c2_fed_distance_is_wrist_distance_witness :
    (sPalm.clap_dist_history.getD []).getLast? =
      some (wristDistSq ⟨0, 0⟩ ⟨1, 0⟩ 100 100) :=
  c2_fed_distance_is_wrist_distance initState palmHand1 palmHand2 100 100 5
    rfl rfl (by rfl)

/-! ## Firing lemmas for the per-hand classifiers -/

/-- The first landmark of a nonempty hand reads successfully. -/
theorem land_zero_of_wf {h : Hand} (hw : 0 < h.length) :
    land h 0 = .ok (h.getD 0 lm0) := by
  cases h with
  | nil => simp at hw
  | cons a t => rfl

/-- A successful finger classification presupposes a 21-point skeleton. -/
theorem fingersOf_ok_length {h : Hand} {fv : List Bool}
    (hf : fingersOf h = .ok fv) : 21 ≤ h.length := by
  unfold fingersOf at hf
  split at hf
  · exact absurd hf (by simp)
  · omega

/-- With a fresh (absent) history, a two-hand clap phase only records the
squared wrist distance: one sample can never satisfy the far-then-close
rule, so no clap is signalled. -/
theorem clapPhase_fresh_history {s : State} {h1 h2 : Hand} {w ht : ℕ}
    {now : ℚ} (hh : s.clap_dist_history = none)
    (hw1 : 0 < h1.length) (hw2 : 0 < h2.length) :
    clapPhase s ⟨[h1, h2], w, ht, now⟩ =
      .ok ({ s with
        clap_dist_history :=
          some [wristDistSq (h1.getD 0 lm0) (h2.getD 0 lm0) w ht] },
        false) := by
  have e1 : land ((⟨[h1, h2], w, ht, now⟩ : Frame).hands.getD 0 []) 0 =
      .ok (h1.getD 0 lm0) := land_zero_of_wf hw1
  have e2 : land ((⟨[h1, h2], w, ht, now⟩ : Frame).hands.getD 1 []) 0 =
      .ok (h2.getD 0 lm0) := land_zero_of_wf hw2
  unfold clapPhase
  split
  · rw [e1, e2]
    dsimp only
    rw [hh]
    rfl
  · rename_i hne
    exact absurd rfl hne

/-- A thumbs-up hand whose debounce check passes stamps the table and
overwrites the pending gesture. -/
theorem handStep_thumb_fires {w : ℕ} {now : ℚ} {s : State}
    {g : Option GKind} {h : Hand}
    (hf : fingersOf h = .ok thumbPat)
    (hdb : now - ((s.last_gesture_time GKind.thumbs_up).getD 0) >
      s.debounce_time) :
    handStep w now (s, g) h =
      .ok ({ s with last_gesture_time := fun q =>
          if q = GKind.thumbs_up then some now else s.last_gesture_time q },
        some GKind.thumbs_up) := by
  rw [handStep_eq_ok hf]
  rw [if_neg (by decide : ¬(thumbPat = openPat)), if_pos rfl]
  unfold thumbStep debounce
  rw [if_pos hdb]
  rfl

/-- An open hand inside the 1-second window with more than 60 px of travel
reaches the wave debounce check; the tracking state is left untouched and
the outcome is entirely the debounce gate's. -/
theorem handStep_wave_window {w : ℕ} {now : ℚ} {s : State}
    {g : Option GKind} {h : Hand} {ws : WaveState}
    (hf : fingersOf h = .ok openPat) (hw : s.wave = some ws)
    (hwin : now - ws.wave_prev_time < 1)
    (hmv : |(h.getD 0 lm0).x - ws.wave_start_pos| * (w : ℚ) > 60) :
    handStep w now (s, g) h =
      .ok ((debounce s GKind.wave now).1,
        if (debounce s GKind.wave now).2 then some GKind.wave else g) := by
  rw [handStep_eq_ok hf]
  rw [if_pos rfl, if_neg (by decide : ¬(openPat = thumbPat))]
  unfold waveStep
  dsimp only
  rw [hw]
  dsimp only
  rw [if_pos hwin, if_pos hmv]

/-! ## C3: the last qualifying hand's candidate wins, not the first -/

/-- C3 (counterexample): seed the wave tracker with an open hand at
x = 0.3, t = 10; then feed one frame at t = 10.4 whose first hand shows a
thumbs-up and whose second hand is an open hand at x = 0.5 (640 px wide,
movement 128 px).  Both hands qualify and pass debouncing, yet `detect`
returns the second hand's `wave`, not the first hand's `thumbs_up` as the
claim demands. -/
theorem c3_first_hand_does_not_win_cx :
    ((runFrames initState [⟨[openHand (3/10)], 640, 480, 10⟩]).bind
      (fun s1 =>
        (detect s1 ⟨[thumbHand, openHand (1/2)], 640, 480, 52/5⟩).map
          Prod.snd)) = .ok (some GKind.wave) ∧
    some GKind.wave ≠ some GKind.thumbs_up := ⟨by rfl, by decide⟩

/-- C3 (amended): when several hands record qualifying, debounce-allowed
candidates in one frame, `detect` returns the candidate of the LAST
qualifying hand in provider order (each later assignment overwrites the
pending gesture): a first-hand `thumbs_up` followed by a second-hand
qualifying `wave` yields `wave`. -/
theorem c3_last_qualifying_hand_wins (s : State) (h1 h2 : Hand)
    (w ht : ℕ) (now : ℚ) (ws : WaveState)
    (hf1 : fingersOf h1 = .ok thumbPat)
    (hf2 : fingersOf h2 = .ok openPat)
    (hh : s.clap_dist_history = none)
    (hw : s.wave = some ws)
    (hwin : now - ws.wave_prev_time < 1)
    (hmv : |(h2.getD 0 lm0).x - ws.wave_start_pos| * (w : ℚ) > 60)
    (hdb1 : now - ((s.last_gesture_time GKind.thumbs_up).getD 0) >
      s.debounce_time)
    (hdb2 : now - ((s.last_gesture_time GKind.wave).getD 0) >
      s.debounce_time) :
    ∃ s2, detect s ⟨[h1, h2], w, ht, now⟩ = .ok (s2, some GKind.wave) := by
  have hcp := @clapPhase_fresh_history s h1 h2 w ht now hh
    (by have := fingersOf_ok_length hf1; omega)
    (by have := fingersOf_ok_length hf2; omega)
  rw [detect_eq_loop (f := ⟨[h1, h2], w, ht, now⟩) rfl hcp]
  set s1 : State := { s with
    clap_dist_history :=
      some [wristDistSq (h1.getD 0 lm0) (h2.getD 0 lm0) w ht] } with hs1def
  rw [handsLoop_cons, handStep_thumb_fires hf1
    (show now - ((s1.last_gesture_time GKind.thumbs_up).getD 0) >
      s1.debounce_time from hdb1)]
  dsimp only
  set sA : State := { s1 with last_gesture_time := fun q =>
    if q = GKind.thumbs_up then some now else s1.last_gesture_time q }
    with hsAdef
  rw [handsLoop_cons, handStep_wave_window hf2
    (show sA.wave = some ws from hw) hwin hmv]
  have hdbB : debounce sA GKind.wave now =
      ({ sA with last_gesture_time := fun q =>
          if q = GKind.wave then some now else sA.last_gesture_time q },
        true) := by
    unfold debounce
    rw [if_pos (show now - ((sA.last_gesture_time GKind.wave).getD 0) >
      sA.debounce_time from hdb2)]
  rw [hdbB]
  dsimp only
  exact ⟨_, rfl⟩

/-- The wave-seeded detector state used by the C3 and C4 witnesses'
second frame. -/
def waveSeeded : State := { initState with wave := some ⟨10, 3/10⟩ }

/-- C3 witness: the amended statement at the concrete two-hand frame of
the counterexample. -/
theorem c3_last_qualifying_hand_wins_witness :
    ∃ s2, detect waveSeeded ⟨[thumbHand, openHand (1/2)], 640, 480, 52/5⟩ =
      .ok (s2, some GKind.wave) :=
  c3_last_qualifying_hand_wins waveSeeded thumbHand (openHand (1/2)) 640 480
    (52/5) ⟨10, 3/10⟩ (by rfl) (by rfl) rfl rfl (by decide) (by decide)
    (by decide) (by decide)

/-! ## C4: a wave fire does not reseed the tracking state -/

/-- C4 (counterexample): seed the tracker at (t = 10, x = 0.3); an open
hand at x = 0.5, t = 10.4 (640 px wide) emits `wave`, yet afterwards the
tracking state still holds (10, 0.3) — not the claimed reseeded
(10.4, 0.5). -/
theorem c4_no_reseed_on_fire_cx :
    (runFrames initState
        [⟨[openHand (3/10)], 640, 480, 10⟩,
          ⟨[openHand (1/2)], 640, 480, 52/5⟩]).map (fun s => s.wave) =
      .ok (some ⟨10, 3/10⟩) ∧
    ((runFrames initState [⟨[openHand (3/10)], 640, 480, 10⟩]).bind
      (fun s1 =>
        (detect s1 ⟨[openHand (1/2)], 640, 480, 52/5⟩).map Prod.snd)) =
      .ok (some GKind.wave) ∧
    (some (⟨10, 3/10⟩ : WaveState) ≠ some ⟨52/5, 1/2⟩) :=
  ⟨by rfl, by rfl, by decide⟩

/-- C4 (amended): when the wave tracker has active state, the observation
is within the 1-second window and the travel exceeds 60 px, the tracker
raises a wave candidate (emitted whenever the debounce gate allows) but
leaves its tracking state exactly as it was — reference position and time
are NOT reseeded; reseeding happens only on window expiry. -/
theorem c4_wave_fire_keeps_tracking_state (s : State) (h : Hand)
    (w ht : ℕ) (now : ℚ) (ws : WaveState)
    (hf : fingersOf h = .ok openPat)
    (hw : s.wave = some ws)
    (hwin : now - ws.wave_prev_time < 1)
    (hmv : |(h.getD 0 lm0).x - ws.wave_start_pos| * (w : ℚ) > 60) :
    ∃ s2 g, detect s ⟨[h], w, ht, now⟩ = .ok (s2, g) ∧
      s2.wave = some ws ∧
      (now - ((s.last_gesture_time GKind.wave).getD 0) > s.debounce_time →
        g = some GKind.wave) := by
  rw [detect_eq_loop (f := ⟨[h], w, ht, now⟩) rfl
    (clapPhase_not_two (by simp)), handsLoop_cons]
  have hs1w : ({ s with
      clap_state := ClapState.apart, prev_dist := none } : State).wave =
      some ws := hw
  rw [handStep_wave_window (g := none) hf hs1w hwin hmv]
  dsimp only
  refine ⟨_, _, rfl, ?_, ?_⟩
  · exact (debounce_fst_fields _ _ _).2.trans hs1w
  · intro hdb
    have hfire : (debounce ({ s with
        clap_state := ClapState.apart, prev_dist := none } : State)
        GKind.wave now).2 = true := by
      unfold debounce
      rw [if_pos (by simpa using hdb)]
    rw [hfire]
    rfl

/-- C4 witness: the amended statement at the concrete one-hand frame of
the counterexample. -/
theorem c4_wave_fire_keeps_tracking_state_witness :
    ∃ s2 g, detect waveSeeded ⟨[openHand (1/2)], 640, 480, 52/5⟩ =
      .ok (s2, g) ∧ s2.wave = some ⟨10, 3/10⟩ ∧
      ((52 : ℚ)/5 - ((waveSeeded.last_gesture_time GKind.wave).getD 0) >
          waveSeeded.debounce_time →
        g = some GKind.wave) :=
  c4_wave_fire_keeps_tracking_state waveSeeded (openHand (1/2)) 640 480
    (52/5) ⟨10, 3/10⟩ (by rfl) rfl (by decide) (by decide)

/-! ## C8: no skeleton-size validation -/

/-- A 22-point skeleton: the thumbs-up hand with one extra landmark. -/
def hand22 : Hand := thumbHand ++ [⟨1/2, 1/2⟩]

/-- C8 (counterexample): a hand whose skeleton has 22 points — not
exactly 21 — is classified silently (here as `thumbs_up`) instead of
producing any MalformedInputError-class failure; the fail-fast claim is
false of the code. -/
theorem c8_oversize_hand_classified_cx :
    hand22.length = 22 ∧
    (detect initState ⟨[hand22], 640, 480, 10⟩).map Prod.snd =
      .ok (some GKind.thumbs_up) := ⟨rfl, by rfl⟩

/-- C8 (amended): the engine performs no skeleton-size validation.  On a
single-hand frame, any hand with at least 21 points — oversized skeletons
included — is classified with no failure signal of any kind, while a hand
with fewer than 21 points aborts with the provider-level out-of-range
landmark error (Python `IndexError`), not a distinguished
MalformedInputError-class signal. -/
theorem c8_no_size_validation (s : State) (h : Hand) (w ht : ℕ) (now : ℚ) :
    (21 ≤ h.length → ∃ out, detect s ⟨[h], w, ht, now⟩ = .ok out) ∧
    (h.length < 21 → detect s ⟨[h], w, ht, now⟩ = .error Err.indexError) := by
  constructor
  · intro hw
    rw [detect_eq_loop (f := ⟨[h], w, ht, now⟩) rfl
      (clapPhase_not_two (by simp))]
    refine handsLoop_ok_of_wf ?_
    intro x hx
    rw [List.mem_singleton] at hx
    rw [hx]
    exact hw
  · intro hlt
    rw [detect_eq_loop (f := ⟨[h], w, ht, now⟩) rfl
      (clapPhase_not_two (by simp)), handsLoop_cons,
      handStep_eq_err (show fingersOf h = .error Err.indexError from by
        unfold fingersOf; rw [if_pos hlt])]

/-- C8 witness: the amended statement at a 21-point hand (classified
without error) and a 2-point hand (index error). -/
theorem c8_no_size_validation_witness :
    (∃ out, detect initState ⟨[mkHand lm0], 640, 480, 10⟩ = .ok out) ∧
    detect initState ⟨[[lm0, lm0]], 640, 480, 10⟩ = .error Err.indexError :=
  ⟨(c8_no_size_validation initState (mkHand lm0) 640 480 10).1 (by decide),
    (c8_no_size_validation initState [lm0, lm0] 640 480 10).2 (by decide)⟩

/-! ## C10: a displaced thumbs_up still consumes its debounce slot -/

/-- `_debounce` for one kind never touches another kind's table entry. -/
theorem debounce_other_key {s : State} {k kq : GKind} {now : ℚ}
    (hne : kq ≠ k) :
    (debounce s k now).1.last_gesture_time kq = s.last_gesture_time kq := by
  unfold debounce
  split
  · simp [hne]
  · rfl

/-- A repeated thumbs-up debounce check at the very timestamp already
stamped cannot fire again (the cooldown is nonnegative), so the stamp
survives. -/
theorem thumbStep_keeps_stamp {now : ℚ} {s : State} {g : Option GKind}
    (hstamp : s.last_gesture_time GKind.thumbs_up = some now)
    (hdt : 0 ≤ s.debounce_time) :
    (thumbStep now s g).1.last_gesture_time GKind.thumbs_up = some now := by
  unfold thumbStep debounce
  rw [hstamp]
  rw [if_neg (show ¬(now - (some now).getD 0 > s.debounce_time) from by
    simp only [Option.getD_some, sub_self]
    exact not_lt.mpr hdt)]
  exact hstamp

/-- The wave tracker's step touches only the `wave` debounce key. -/
theorem waveStep_keeps_key {w : ℕ} {now x0 : ℚ} {s : State}
    {g : Option GKind} {kq : GKind} (hne : kq ≠ GKind.wave) :
    (waveStep w now s g x0).1.last_gesture_time kq =
      s.last_gesture_time kq := by
  unfold waveStep
  split
  · rfl
  · split
    · split
      · exact debounce_other_key hne
      · rfl
    · rfl

/-- Once a hand has stamped `thumbs_up` at the current time, later hands
in the same frame cannot unstamp it. -/
theorem handStep_keeps_thumbs_stamp {w : ℕ} {now : ℚ}
    {acc acc2 : State × Option GKind} {h : Hand}
    (hstep : handStep w now acc h = .ok acc2)
    (hstamp : acc.1.last_gesture_time GKind.thumbs_up = some now)
    (hdt : 0 ≤ acc.1.debounce_time) :
    acc2.1.last_gesture_time GKind.thumbs_up = some now := by
  cases hfin : fingersOf h with
  | error e => rw [handStep_eq_err hfin] at hstep; exact absurd hstep (by simp)
  | ok fv =>
    rw [handStep_eq_ok hfin] at hstep
    injection hstep with hstep
    subst hstep
    split
    · rw [waveStep_keeps_key (by decide)]
      split
      · exact thumbStep_keeps_stamp hstamp hdt
      · exact hstamp
    · split
      · exact thumbStep_keeps_stamp hstamp hdt
      · exact hstamp

/-- C10 (confirmed): when the first hand's thumbs-up candidate passes the
debounce gate, the gate's `thumbs_up` entry is stamped with the current
time and remains stamped through the rest of the frame, whatever the
second hand does and whichever event is ultimately returned — a later
displacing `wave` does not undo the consumed slot. -/
theorem c10_thumbs_debounce_consumed (s : State) (h1 h2 : Hand)
    (w ht : ℕ) (now : ℚ)
    (hf1 : fingersOf h1 = .ok thumbPat)
    (hwf2 : 21 ≤ h2.length)
    (hh : s.clap_dist_history = none)
    (hdt : 0 ≤ s.debounce_time)
    (hdb : now - ((s.last_gesture_time GKind.thumbs_up).getD 0) >
      s.debounce_time) :
    ∃ s2 g, detect s ⟨[h1, h2], w, ht, now⟩ = .ok (s2, g) ∧
      s2.last_gesture_time GKind.thumbs_up = some now := by
  have hcp := @clapPhase_fresh_history s h1 h2 w ht now hh
    (by have := fingersOf_ok_length hf1; omega) (by omega)
  rw [detect_eq_loop (f := ⟨[h1, h2], w, ht, now⟩) rfl hcp]
  set s1 : State := { s with
    clap_dist_history :=
      some [wristDistSq (h1.getD 0 lm0) (h2.getD 0 lm0) w ht] } with hs1def
  rw [handsLoop_cons, handStep_thumb_fires hf1
    (show now - ((s1.last_gesture_time GKind.thumbs_up).getD 0) >
      s1.debounce_time from hdb)]
  dsimp only
  set sA : State := { s1 with last_gesture_time := fun q =>
    if q = GKind.thumbs_up then some now else s1.last_gesture_time q }
    with hsAdef
  obtain ⟨acc2, hstep2⟩ :=
    @handStep_ok_of_wf w now (sA, some GKind.thumbs_up) h2 hwf2
  rw [handsLoop_cons, hstep2]
  dsimp only
  refine ⟨acc2.1, acc2.2, rfl, ?_⟩
  exact handStep_keeps_thumbs_stamp hstep2
    (show sA.last_gesture_time GKind.thumbs_up = some now from rfl)
    (show (0 : ℚ) ≤ sA.debounce_time from hdt)

/-- C10 witness: the consumed-slot statement at the concrete displacement
frame (first hand thumbs-up, second hand a qualifying wave). -/
theorem c10_thumbs_debounce_consumed_witness :
    ∃ s2 g, detect waveSeeded ⟨[thumbHand, openHand (1/2)], 640, 480, 52/5⟩ =
      .ok (s2, g) ∧
      s2.last_gesture_time GKind.thumbs_up = some (52/5) :=
  c10_thumbs_debounce_consumed waveSeeded thumbHand (openHand (1/2)) 640 480
    (52/5) (by rfl) (by decide) rfl (by decide) (by decide)

/-- A detector state whose clap history is at the 10-entry bound, for the
C7 witness. -/
def s10 : State :=
  { initState with clap_dist_history := some [1, 2, 3, 4, 5, 6, 7, 8, 9, 10] }

/-- The state `s10` becomes after one more two-hand frame: the oldest
entry 1 is evicted and the new squared distance 90000 appended. -/
def s10b : State :=
  { initState with
    clap_dist_history := some [2, 3, 4, 5, 6, 7, 8, 9, 10, 90000] }

/-- C7 witness: the bound and FIFO eviction instantiated at a full
history and one concrete two-hand frame. -/
theorem c7_clap_history_bound_and_fifo_witness :
    ((s10b.clap_dist_history.getD []).length ≤ 10 ∧
      ((twoNeutral 0 (3/10) 1).hands.length = 2 →
        (s10.clap_dist_history.getD []).length = 10 →
        ∃ d, s10b.clap_dist_history =
          some ((s10.clap_dist_history.getD []).drop 1 ++ [d]))) ∧
    (s10b.clap_dist_history.getD []).length ≤ 10 :=
  ⟨c7_clap_history_bound_and_fifo.1 s10 (twoNeutral 0 (3/10) 1) s10b none
      (by decide) (by rfl),
    c7_clap_history_bound_and_fifo.2 [twoNeutral 0 (3/10) 1] s10 s10b
      (by decide) (by rfl)⟩

end Gesture

